import Mathlib

/-!
Verification of the vSMTP repository against its natural-language
specification.  The Lean definitions below are a shallow embedding of the
relevant Rust sources (`src/vsmtp/src/tracing_subscriber.rs`,
`src/vsmtp/vsmtp-rule-engine/src/api/message.rs`,
`src/vsmtp/vsmtp-rule-engine/src/modules/actions/write.rs`) and, where the
protocol engine's code is not part of the source tree (the
`vsmtp-protocol` crate only declares its modules), a model built from the
specification's own words (each such definition is marked
`Modelled from the spec:`).
-/

namespace VSmtp

/-! ## Logging initialization (`src/vsmtp/src/tracing_subscriber.rs`) -/

/-- Rust `log::LevelFilter`, the level filter found in the server-log
configuration. -/
inductive LevelFilter
  | Off
  | Error
  | Warn
  | Info
  | Debug
  | Trace
deriving DecidableEq, Repr

/-- Rust `tracing::Level`, the target of the level mapping in `initialize`. -/
inductive TracingLevel
  | ERROR
  | WARN
  | INFO
  | DEBUG
  | TRACE
deriving DecidableEq, Repr

/-- Rust `vsmtp_config::field::SyslogFormat`. -/
inductive SyslogFormat
  | Rfc3164
  | Rfc5424
deriving DecidableEq, Repr

/-- Rust `vsmtp_config::field::SyslogSocket` (the address payloads are irrelevant
to the level mapping and are omitted). -/
inductive SyslogSocket
  | Udp
  | Tcp
  | Unix
deriving DecidableEq, Repr

/-- Rust `vsmtp_config::field::FieldServerLogSystem`: the system-log
configuration handled by `initialize`. -/
inductive FieldServerLogSystem
  | Syslogd (level : LevelFilter) (format : SyslogFormat) (socket : SyslogSocket)
  | Journald (level : LevelFilter)
deriving DecidableEq, Repr

/-- The `match level { ... }` expression occurring twice inside `initialize`
(tracing_subscriber.rs lines 219-226 for `Syslogd` and 240-247 for
`Journald`).  The Rust arm `log::LevelFilter::Off => unimplemented!()`
panics when evaluated; the panic is embedded as `Except.error` with the
message `unimplemented!` produces. -/
def levelToTracing : LevelFilter → Except String TracingLevel
  | .Off => .error "not implemented"
  | .Error => .ok .ERROR
  | .Warn => .ok .WARN
  | .Info => .ok .INFO
  | .Debug => .ok .DEBUG
  | .Trace => .ok .TRACE

/-- The level mapping performed by `initialize` for a given system-log
configuration: both the `Syslogd` and the `Journald` branches run the same
`match` on their `level` field. -/
def initializeLevelMapping : FieldServerLogSystem → Except String TracingLevel
  | .Syslogd level _ _ => levelToTracing level
  | .Journald level => levelToTracing level

/-! ## Rule-engine message API
(`src/vsmtp/vsmtp-rule-engine/src/api/message.rs`) -/

/-- The parsed mail held behind the `Message` lock: a sequence of headers
(name, value) in message order.  Modelled from the spec: the
`vsmtp-mail-parser` crate is not part of the source tree; per the crate's
doc-tests and the unit tests in `api/message.rs`, `append_header` appends a
(name, value) pair and `get_header` returns the value of the first header
with the given name, or `None`. -/
structure MessageBody where
  headers : List (String × String)
deriving DecidableEq, Repr

/-- Function `MessageBody::get_header` of the mail parser: first value bearing the
name, if any.  Modelled from the spec: see `MessageBody`. -/
def MessageBody.getHeader (m : MessageBody) (header : String) : Option String :=
  (m.headers.find? (fun kv => kv.1 = header)).map (fun kv => kv.2)

/-- Function `MessageBody::append_header`.  Modelled from the spec: see
`MessageBody`. -/
def MessageBody.appendHeader (m : MessageBody) (header value : String) : MessageBody :=
  ⟨m.headers ++ [(header, value)]⟩

/-- Rust `str::to_lowercase` restricted to its ASCII fragment (header field
names are ASCII), as used by `get_all_headers` and
`get_header_untouched`. -/
def lowerAscii (s : String) : String :=
  ⟨s.data.map Char.toLower⟩

/-- Function `get_header` of `api/message.rs` (lines 142-147): reads the message and
returns `Ok(message.get_header(header).unwrap_or_default())`.  The lock
guard (`vsl_guard_ok!`) only fails on poisoning, which has no counterpart
in the sequential embedding. -/
def get_header (message : MessageBody) (header : String) : Except String String :=
  .ok ((message.getHeader header).getD "")

/-- Function `get_all_headers` of `api/message.rs` (lines 315-326): lowercases the
argument, keeps the headers whose lowercased name equals it, and returns
their values. -/
def get_all_headers (message : MessageBody) (name : String) : Except String (List String) :=
  let nameLowercase := lowerAscii name
  .ok ((message.headers.filter (fun kv => lowerAscii kv.1 = nameLowercase)).map
    (fun kv => kv.2))

/-- Function `get_header_untouched` of `api/message.rs` (lines 297-309): same
selection as `get_all_headers`, but returns each selected header rendered
as `"name:value"`. -/
def get_header_untouched (message : MessageBody) (name : String) :
    Except String (List String) :=
  let nameLowercase := lowerAscii name
  .ok ((message.headers.filter (fun kv => lowerAscii kv.1 = nameLowercase)).map
    (fun kv => kv.1 ++ ":" ++ kv.2))

/-! ## The vsl `write` action
(`src/vsmtp/vsmtp-rule-engine/src/modules/actions/write.rs`) -/

/-- Rust `vsmtp_common::mail_context::MessageBody` as seen by the `write`
action: either no body received yet, or some received content rendered by
`to_string`. -/
inductive CtxBody
  | Empty
  | Received (content : String)
deriving DecidableEq, Repr

/-- Filesystem effects performed by the `write` action, in order. -/
inductive FsEvent
  | createAppFolder (dir : String)
  | createFile (path : String)
  | writeBytes (bytes : String)
deriving DecidableEq, Repr

/-- The `write` action (write.rs lines 32-62), under the claim's assumption
that `create_app_folder` and `OpenOptions::open` succeed.  The source
creates the app folder, opens (creating) `<message_id>.eml`, and only then
checks the body: if it is `MessageBody::Empty` it returns the error
`"failed to write email: the body has not been received yet."` without
writing; otherwise it writes the rendered body.  The returned list records
the filesystem effects in program order. -/
def write (dir messageId : String) (body : CtxBody) :
    Except String Unit × List FsEvent :=
  let path := dir ++ "/" ++ messageId ++ ".eml"
  let opened := [FsEvent.createAppFolder dir, FsEvent.createFile path]
  match body with
  | .Empty =>
      (.error "failed to write email: the body has not been received yet.", opened)
  | .Received content =>
      (.ok (), opened ++ [FsEvent.writeBytes content])

/-! ## The ESMTP receiver

The `vsmtp-protocol` crate's implementation files (`reader.rs`,
`receiver.rs`, `smtp_sasl.rs`, ...) are not part of the source tree — its
`lib.rs` only declares the modules — so the receiver below is modelled
from the specification (sections 3, 4.1, 4.3, 4.4, 4.5 and 8 of
`spec.md`).  Lines are sequences of octets (ASCII characters), written
without their trailing CRLF; the line length in octets including CRLF is
`length + 2`. -/

/-- One logical SMTP line, without its trailing CRLF. -/
abbrev Line := List Char

/-- An SMTP reply: three-digit code and text. -/
structure Reply where
  code : Nat
  text : String
deriving DecidableEq, Repr

/-- Build a reply. -/
def reply (code : Nat) (text : String) : Reply := ⟨code, text⟩

/-- Modelled from the spec: the typed verb produced by the command parser
(spec §3 "Verb"), restricted to the argument payloads the receiver
claims use. -/
inductive Verb
  | helo (name : Line)
  | ehlo (name : Line)
  | mailFrom (arg : Line)
  | rcptTo (arg : Line)
  | data
  | rset
  | quit
  | noop
  | help (topic : Line)
  | vrfy (arg : Line)
  | startTls
  | auth (arg : Line)
  | unknown (raw : Line)
deriving DecidableEq, Repr

/-- Case-insensitive pattern strip: `stripPrefixCI pat line` returns the
remainder of `line` after `pat` when the first `pat.length` octets of
`line`, uppercased, equal `pat` (given uppercase), and `none` otherwise. -/
def stripPrefixCI : Line → Line → Option Line
  | [], rest => some rest
  | _ :: _, [] => none
  | p :: ps, c :: cs => if c.toUpper = p then stripPrefixCI ps cs else none

/-- The ten octets of the `MAIL FROM:` command phrase. -/
def mailFromPat : Line := ['M', 'A', 'I', 'L', ' ', 'F', 'R', 'O', 'M', ':']

/-- The eight octets of the `RCPT TO:` command phrase. -/
def rcptToPat : Line := ['R', 'C', 'P', 'T', ' ', 'T', 'O', ':']

/-- The verb token of a command line, uppercased for matching
(spec §4.3). -/
def verbToken (line : Line) : Line :=
  (line.takeWhile (fun c => c ≠ ' ')).map Char.toUpper

/-- The argument part of a command line: everything after the first
space. -/
def verbRest (line : Line) : Line :=
  (line.dropWhile (fun c => c ≠ ' ')).drop 1

/-- Modelled from the spec: the command parser (spec §4.3) — a pure
function from one line to a `Verb`; the verb token is matched
case-insensitively, arguments retain their case. -/
def parseVerb (line : Line) : Verb :=
  match stripPrefixCI mailFromPat line with
  | some rest => .mailFrom rest
  | none =>
    match stripPrefixCI rcptToPat line with
    | some rest => .rcptTo rest
    | none =>
      let tok := verbToken line
      let rest := verbRest line
      if tok = ['H', 'E', 'L', 'O'] then .helo rest
      else if tok = ['E', 'H', 'L', 'O'] then .ehlo rest
      else if tok = ['D', 'A', 'T', 'A'] then .data
      else if tok = ['R', 'S', 'E', 'T'] then .rset
      else if tok = ['Q', 'U', 'I', 'T'] then .quit
      else if tok = ['N', 'O', 'O', 'P'] then .noop
      else if tok = ['H', 'E', 'L', 'P'] then .help rest
      else if tok = ['V', 'R', 'F', 'Y'] then .vrfy rest
      else if tok = ['S', 'T', 'A', 'R', 'T', 'T', 'L', 'S'] then .startTls
      else if tok = ['A', 'U', 'T', 'H'] then .auth rest
      else .unknown line

/-- Modelled from the spec: the session states of the receiver state
machine (spec §4.4), plus `Closed` for a terminated session.  The initial
`Connect` state emits the greeting before any client line and immediately
becomes `Greeted`; since no client input is processed there it is not a
separate state of the line-processing machine. -/
inductive SessionState
  | Greeted
  | Hello
  | MailFrom
  | RcptTo
  | Data
  | SaslChallenge
  | Closed
deriving DecidableEq, Repr

/-- Modelled from the spec: the envelope (spec §3): reverse-path and
ordered forward-paths. -/
structure Envelope where
  reversePath : Line
  forwardPaths : List Line
deriving DecidableEq, Repr

/-- Modelled from the spec: the session context (spec §3), restricted to
the fields the claims mention, plus the receiver-internal data of the
modelled sub-loops: `mechChallenges` is the (fixed) list of challenges the
configured SASL mechanism will issue, `saslRemaining` the challenges still
to issue in the current exchange, and `dataBuf` the unstuffed body lines
accumulated during DATA. -/
structure Session where
  st : SessionState
  helloName : Option Line
  isTls : Bool
  isAuthenticated : Bool
  envelope : Option Envelope
  tlsConfigured : Bool
  mechChallenges : List String
  saslRemaining : List String
  dataBuf : List Line
deriving DecidableEq, Repr

/-- Modelled from the spec: dispatch of a parsed verb in the command
phase, under a permissive handler (every policy hook accepts with the
default reply).  Follows the state table of spec §4.4; a verb not accepted
in the current state yields `503 Bad sequence of commands` and leaves the
session unchanged.  For STARTTLS the successful TLS handshake that follows
the accepted command is folded into the same transition, which performs
the spec's session reset: `IsTls` set, hello name, envelope and
authentication cleared, next state `Greeted` (client must EHLO again). -/
def dispatch (s : Session) (v : Verb) : Session × List Reply :=
  match v with
  | .helo name | .ehlo name =>
    match s.st with
    | .Greeted | .Hello =>
      ({ s with st := .Hello, helloName := some name, envelope := none },
        [reply 250 "Ok"])
    | _ => (s, [reply 503 "Bad sequence of commands"])
  | .mailFrom arg =>
    match s.st with
    | .Hello =>
      ({ s with st := .MailFrom, envelope := some ⟨arg, []⟩ }, [reply 250 "Ok"])
    | _ => (s, [reply 503 "Bad sequence of commands"])
  | .rcptTo arg =>
    match s.st with
    | .MailFrom | .RcptTo =>
      match s.envelope with
      | some env =>
        ({ s with
            st := .RcptTo
            envelope := some ⟨env.reversePath, env.forwardPaths ++ [arg]⟩ },
          [reply 250 "Ok"])
      | none => (s, [reply 503 "Bad sequence of commands"])
    | _ => (s, [reply 503 "Bad sequence of commands"])
  | .data =>
    match s.st with
    | .RcptTo =>
      ({ s with st := .Data, dataBuf := [] },
        [reply 354 "Start mail input; end with <CRLF>.<CRLF>"])
    | _ => (s, [reply 503 "Bad sequence of commands"])
  | .rset =>
    match s.st with
    | .Hello | .MailFrom | .RcptTo =>
      ({ s with st := .Hello, envelope := none }, [reply 250 "Ok"])
    | _ => (s, [reply 503 "Bad sequence of commands"])
  | .quit => ({ s with st := .Closed, envelope := none }, [reply 221 "Bye"])
  | .noop => (s, [reply 250 "Ok"])
  | .help _ => (s, [reply 214 "Help"])
  | .vrfy _ => (s, [reply 252 "Cannot VRFY user"])
  | .startTls =>
    match s.st with
    | .Hello =>
      if s.tlsConfigured && !s.isTls then
        ({ s with
            st := .Greeted
            helloName := none
            envelope := none
            isAuthenticated := false
            isTls := true
            saslRemaining := []
            dataBuf := [] },
          [reply 220 "Ready to start TLS"])
      else (s, [reply 454 "TLS not available"])
    | _ => (s, [reply 503 "Bad sequence of commands"])
  | .auth _ =>
    match s.st with
    | .Hello =>
      if s.isAuthenticated then (s, [reply 503 "Already authenticated"])
      else
        match s.mechChallenges with
        | [] =>
          ({ s with isAuthenticated := true },
            [reply 235 "Authentication successful"])
        | c :: rest =>
          ({ s with st := .SaslChallenge, saslRemaining := rest },
            [reply 334 c])
    | _ => (s, [reply 503 "Bad sequence of commands"])
  | .unknown _ => (s, [reply 500 "Syntax error, command unrecognized"])

/-- Modelled from the spec: one round of the SASL sub-loop (spec §4.5).
A continuation line equal to `*` is a client abort: `501 Authentication
cancelled`, back to `Hello`.  Otherwise the mechanism either issues its
next challenge (`334`) or completes (`235`, authenticated, back to
`Hello`). -/
def saslStep (s : Session) (line : Line) : Session × List Reply :=
  if line = ['*'] then
    ({ s with st := .Hello, saslRemaining := [] },
      [reply 501 "Authentication cancelled"])
  else
    match s.saslRemaining with
    | c :: rest => ({ s with saslRemaining := rest }, [reply 334 c])
    | [] =>
      ({ s with st := .Hello, isAuthenticated := true },
        [reply 235 "Authentication successful"])

/-- The line length limit: 1000 octets including CRLF (spec §3
invariants, §6). -/
def MAX_LINE : Nat := 1000

/-- The states in which the receiver is reading command lines (as opposed
to DATA body lines or SASL continuation lines). -/
def isCommandPhase (st : SessionState) : Bool :=
  match st with
  | .Greeted | .Hello | .MailFrom | .RcptTo => true
  | _ => false

/-- Reverse dot-stuffing of one body line (spec §4.1): a leading `.` on a
data line is stripped, any other line is unchanged. -/
def unstuff (l : Line) : Line :=
  match l with
  | '.' :: rest => rest
  | _ => l

/-- The two octets CR LF. -/
def crlf : Line := ['\r', '\n']

/-- The raw bytes of a message given its lines: each line followed by
CRLF. -/
def joinCrlf (ls : List Line) : Line := (ls.map (fun l => l ++ crlf)).flatten

/-- Modelled from the spec: processing of one received line by the
receiver.  Returns the next session, the replies emitted for this line,
and the raw messages handed to `on_message` by this line (empty or a
singleton).  In the command phase a line longer than 1000 octets including
CRLF is rejected with `500` without being parsed (spec §3 invariants); in
the `Data` state lines of any length are accepted, a leading dot is
stripped, and the lone `.` line terminates the body, delivering the
accumulated raw bytes and clearing the envelope (spec §4.1, §4.4). -/
def step (s : Session) (line : Line) : Session × List Reply × List Line :=
  match s.st with
  | .Closed => (s, [], [])
  | .Data =>
    if line = ['.'] then
      ({ s with st := .Hello, envelope := none, dataBuf := [] },
        [reply 250 "Ok"], [joinCrlf s.dataBuf])
    else
      ({ s with dataBuf := s.dataBuf ++ [unstuff line] }, [], [])
  | .SaslChallenge =>
    let r := saslStep s line
    (r.1, r.2, [])
  | _ =>
    if MAX_LINE < line.length + 2 then
      (s, [reply 500 "Line too long"], [])
    else
      let r := dispatch s (parseVerb line)
      (r.1, r.2, [])

/-- Modelled from the spec: the receiver's command loop over a list of
received lines, collecting all replies and all messages delivered to
`on_message`. -/
def run (s : Session) : List Line → Session × List Reply × List Line
  | [] => (s, [], [])
  | l :: ls =>
    let r1 := step s l
    let r2 := run r1.1 ls
    (r2.1, r1.2.1 ++ r2.2.1, r1.2.2 ++ r2.2.2)

/-- How far along the mail transaction a state is; the SASL sub-state and
a closed session do not advance the transaction (after any AUTH result the
session is back in `Hello`, spec §4.4). -/
def transRank (st : SessionState) : Nat :=
  match st with
  | .Greeted => 0
  | .Hello => 1
  | .MailFrom => 2
  | .RcptTo => 3
  | .Data => 4
  | .SaslChallenge => 1
  | .Closed => 0

/-- A verb progresses the session when its dispatch moves the transaction
strictly forward. -/
def progresses (s : Session) (v : Verb) : Bool :=
  transRank s.st < transRank (dispatch s v).1.st

/-- The run starting at `s` processes every given line in the command
phase. -/
def staysInCommandPhase (s : Session) : List Line → Bool
  | [] => true
  | l :: ls => isCommandPhase s.st && staysInCommandPhase (step s l).1 ls

/-- The wire line for `MAIL FROM:` with the given raw argument. -/
def mailLine (arg : Line) : Line := mailFromPat ++ arg

/-- The wire line for `RCPT TO:` with the given raw argument. -/
def rcptLine (arg : Line) : Line := rcptToPat ++ arg

/-- The wire line `DATA`. -/
def dataLine : Line := ['D', 'A', 'T', 'A']

/-- The body terminator line, `.` alone. -/
def dotLine : Line := ['.']

/-! ## Helper lemmas about the receiver model -/

/-- Parsing a `MAIL FROM:` line yields the `mailFrom` verb with the raw
remainder as argument. -/
theorem parse_mail (arg : Line) : parseVerb (mailLine arg) = .mailFrom arg := rfl

/-- Parsing an `RCPT TO:` line yields the `rcptTo` verb with the raw
remainder as argument. -/
theorem parse_rcpt (arg : Line) : parseVerb (rcptLine arg) = .rcptTo arg := rfl

/-- Parsing the line `DATA` yields the `data` verb. -/
theorem parse_data : parseVerb dataLine = .data := by decide

/-- In the command phase, a line within the length limit is parsed and
dispatched. -/
theorem step_cmd (s : Session) (line : Line) (h : isCommandPhase s.st = true)
    (hlen : line.length + 2 ≤ MAX_LINE) :
    step s line = ((dispatch s (parseVerb line)).1, (dispatch s (parseVerb line)).2, []) := by
  have hnot : ¬ MAX_LINE < line.length + 2 := Nat.not_lt.mpr hlen
  cases hst : s.st <;> simp [isCommandPhase, hst] at h <;> simp [step, hst, hnot]

/-- Dispatch of any verb in any state emits exactly one reply. -/
theorem dispatch_replies_one (s : Session) (v : Verb) :
    ((dispatch s v).2).length = 1 := by
  cases v <;> cases hst : s.st <;>
    simp [dispatch, hst] <;> split <;> simp_all <;> split <;> simp_all

/-- Any line processed in the command phase draws exactly one reply,
whether it is over-long (500), parses, or fails to parse. -/
theorem step_cmd_one (s : Session) (line : Line) (h : isCommandPhase s.st = true) :
    ((step s line).2.1).length = 1 := by
  by_cases hl : MAX_LINE < line.length + 2
  · cases hst : s.st <;> simp [isCommandPhase, hst] at h <;> simp [step, hst, hl]
  · rw [step_cmd s line h (Nat.not_lt.mp hl)]
    exact dispatch_replies_one s (parseVerb line)

/-- Running a concatenation of line lists composes the runs. -/
theorem run_append (s : Session) (ls1 ls2 : List Line) :
    run s (ls1 ++ ls2) =
      ((run (run s ls1).1 ls2).1,
        (run s ls1).2.1 ++ (run (run s ls1).1 ls2).2.1,
        (run s ls1).2.2 ++ (run (run s ls1).1 ls2).2.2) := by
  induction ls1 generalizing s with
  | nil => simp [run]
  | cons l ls ih => simp [run, ih, List.append_assoc]

/-- Running a single line is one step. -/
theorem run_singleton (s : Session) (l : Line) : run s [l] = step s l := by
  simp [run]

/-- In the `Data` state, a list of body lines none of which is the lone
dot is accumulated, unstuffed, with no reply and no delivery. -/
theorem run_body (body : List Line) (s : Session) (hst : s.st = .Data)
    (hbody : ∀ l ∈ body, l ≠ dotLine) :
    run s body = ({ s with dataBuf := s.dataBuf ++ body.map unstuff }, [], []) := by
  induction body generalizing s with
  | nil => simp [run]
  | cons l ls ih =>
    have hl : l ≠ ['.'] := by
      have := hbody l (by simp)
      simpa [dotLine] using this
    have hstep : step s l = ({ s with dataBuf := s.dataBuf ++ [unstuff l] }, [], []) := by
      simp [step, hst, hl]
    have ihs := ih { s with dataBuf := s.dataBuf ++ [unstuff l] } (by simp [hst])
      (fun x hx => hbody x (by simp [hx]))
    simp [run, hstep, ihs]

/-- From `MailFrom` or `RcptTo` with an envelope present, a list of
`RCPT TO:` lines within the length limit appends all the recipients, one
250 reply each. -/
theorem run_rcpts (rcpts : List Line) (s : Session) (env : Envelope)
    (hst : s.st = .MailFrom ∨ s.st = .RcptTo) (henv : s.envelope = some env)
    (hlen : ∀ r ∈ rcpts, r.length ≤ 990) :
    run s (rcpts.map rcptLine) =
      ({ s with
          st := if rcpts.isEmpty then s.st else .RcptTo
          envelope := some ⟨env.reversePath, env.forwardPaths ++ rcpts⟩ },
        rcpts.map (fun _ => reply 250 "Ok"), []) := by
  induction rcpts generalizing s env with
  | nil =>
    simp [run]
    cases s
    simp_all
  | cons r rest ih =>
    have hphase : isCommandPhase s.st = true := by
      rcases hst with h | h <;> simp [isCommandPhase, h]
    have hlen1 : (rcptLine r).length + 2 ≤ MAX_LINE := by
      have := hlen r (by simp)
      simp [rcptLine, rcptToPat, MAX_LINE]
      omega
    have hdisp : dispatch s (.rcptTo r) =
        ({ s with
            st := .RcptTo
            envelope := some ⟨env.reversePath, env.forwardPaths ++ [r]⟩ },
          [reply 250 "Ok"]) := by
      rcases hst with h | h <;> simp [dispatch, h, henv]
    have hstep := step_cmd s (rcptLine r) hphase hlen1
    rw [parse_rcpt, hdisp] at hstep
    have ihs := ih { s with
        st := .RcptTo
        envelope := some ⟨env.reversePath, env.forwardPaths ++ [r]⟩ }
      ⟨env.reversePath, env.forwardPaths ++ [r]⟩ (by simp) (by simp)
      (fun x hx => hlen x (by simp [hx]))
    simp [run, hstep, ihs]

/-- A run whose every line is handled in the command phase draws exactly
one reply per line. -/
theorem run_cmd_counts (lines : List Line) (s : Session)
    (h : staysInCommandPhase s lines = true) :
    ((run s lines).2.1).length = lines.length := by
  induction lines generalizing s with
  | nil => simp [run]
  | cons l ls ih =>
    simp [staysInCommandPhase, Bool.and_eq_true] at h
    obtain ⟨h1, h2⟩ := h
    simp [run, step_cmd_one s l h1, ih _ h2]
    omega

/-! ## Theorems -/

/-- Claim C1, counterexample: the claim states that `initialize` run with level filter `Off`
completes its level mapping without panicking.  It does not: the Rust arm
for `Off` is `unimplemented!()`, which panics when evaluated; here, at the
concrete configuration `Syslogd` with level `Off` (and likewise
`Journald`), the mapping evaluates to the panic, not to a level. -/
theorem C1_off_panics :
    initializeLevelMapping (.Syslogd .Off .Rfc3164 .Udp) = .error "not implemented" ∧
    initializeLevelMapping (.Journald .Off) = .error "not implemented" :=
  ⟨rfl, rfl⟩

/-- Claim C1 as amended: for every system-log configuration (`Syslogd` or
`Journald`), the level mapping in `initialize` covers the filter `Off`
with an explicit match arm, but that arm panics (`unimplemented!`);
for every level other than `Off` the mapping completes without panicking,
yielding the corresponding tracing level. -/
theorem C1_level_mapping (l : LevelFilter) (fmt : SyslogFormat) (sock : SyslogSocket) :
    (l = .Off →
      initializeLevelMapping (.Syslogd l fmt sock) = .error "not implemented" ∧
      initializeLevelMapping (.Journald l) = .error "not implemented") ∧
    (l ≠ .Off →
      ∃ t, initializeLevelMapping (.Syslogd l fmt sock) = .ok t ∧
        initializeLevelMapping (.Journald l) = .ok t) := by
  cases l <;> simp [initializeLevelMapping, levelToTracing]

/-- Claim C1 witness: the amended statement evaluated at `Off` and at `Info`. -/
theorem C1_level_mapping_witness :
    (initializeLevelMapping (.Syslogd .Off .Rfc3164 .Udp) = .error "not implemented" ∧
      initializeLevelMapping (.Journald .Off) = .error "not implemented") ∧
    (∃ t, initializeLevelMapping (.Syslogd .Info .Rfc3164 .Udp) = .ok t ∧
      initializeLevelMapping (.Journald .Info) = .ok t) :=
  ⟨(C1_level_mapping .Off .Rfc3164 .Udp).1 rfl,
    (C1_level_mapping .Info .Rfc3164 .Udp).2 (by decide)⟩

/-- Claim C8: the function `get_header` returns `Ok` with the value of a header bearing the
requested name when one exists in the message, and `Ok ""` when none
exists; the absence of the header is never an error. -/
theorem C8_get_header_total (m : MessageBody) (name : String) :
    (∀ v, m.getHeader name = some v → get_header m name = .ok v) ∧
    (m.getHeader name = none → get_header m name = .ok "") := by
  refine ⟨fun v h => ?_, fun h => ?_⟩ <;> simp [get_header, h]

/-- Claim C8 witness: the message of `test_get_header_success`, with
`X-HEADER-1` present and `X-HEADER-3` absent. -/
theorem C8_get_header_total_witness :
    get_header ⟨[("X-HEADER-1", "VALUE-1"), ("X-HEADER-2", "example.com")]⟩
      "X-HEADER-1" = .ok "VALUE-1" ∧
    get_header ⟨[("X-HEADER-1", "VALUE-1"), ("X-HEADER-2", "example.com")]⟩
      "X-HEADER-3" = .ok "" :=
  ⟨(C8_get_header_total ⟨[("X-HEADER-1", "VALUE-1"), ("X-HEADER-2", "example.com")]⟩
      "X-HEADER-1").1 "VALUE-1" (by decide),
    (C8_get_header_total ⟨[("X-HEADER-1", "VALUE-1"), ("X-HEADER-2", "example.com")]⟩
      "X-HEADER-3").2 (by decide)⟩

/-- Claim C9: the functions `get_all_headers name` and `get_header_untouched name` both select
exactly the headers whose field name, lowercased, equals the lowercased
argument, in the order the headers occur in the message; the former
returns their values, the latter their `"name:value"` renderings. -/
theorem C9_select_case_insensitive (m : MessageBody) (name : String) :
    get_all_headers m name =
      .ok ((m.headers.filter (fun kv => lowerAscii kv.1 = lowerAscii name)).map
        (fun kv => kv.2)) ∧
    get_header_untouched m name =
      .ok ((m.headers.filter (fun kv => lowerAscii kv.1 = lowerAscii name)).map
        (fun kv => kv.1 ++ ":" ++ kv.2)) :=
  ⟨rfl, rfl⟩

/-- Claim C10: called on a context whose body is `MessageBody::Empty` (directory
creation and file open succeeding), `write` returns the error that the
body has not been received and performs no byte write, yet the `.eml`
file has already been created before the emptiness check. -/
theorem C10_write_empty_body (dir messageId : String) :
    (write dir messageId .Empty).1 =
      .error "failed to write email: the body has not been received yet." ∧
    (write dir messageId .Empty).2 =
      [.createAppFolder dir, .createFile (dir ++ "/" ++ messageId ++ ".eml")] ∧
    ∀ b, FsEvent.writeBytes b ∉ (write dir messageId .Empty).2 := by
  refine ⟨rfl, rfl, fun b => ?_⟩
  simp [write]

/-- Claim C2: for a command sequence MAIL, one or more RCPT, DATA, body
lines, terminator, under the permissive handler, the raw bytes delivered
to `on_message` equal the transmitted body with dot-stuffing reversed,
byte for byte: each data line whose first octet is a dot loses exactly
that dot, other lines are unchanged, and the lone dot terminator line is
not part of the message.  The command lines are assumed to fit the
1000-octet line limit (`MAIL FROM:` is 10 octets, `RCPT TO:` 8, CRLF 2). -/
theorem C2_dot_stuffing_reversed (s : Session) (rp : Line) (rcpts body : List Line)
    (hst : s.st = .Hello) (hrp : rp.length ≤ 988)
    (hrcpts : ∀ r ∈ rcpts, r.length ≤ 990) (hne : rcpts ≠ [])
    (hbody : ∀ l ∈ body, l ≠ dotLine) :
    (run s (mailLine rp :: (rcpts.map rcptLine ++ [dataLine] ++ body ++ [dotLine]))).2.2
      = [joinCrlf (body.map unstuff)] := by
  have hie : rcpts.isEmpty = false := by
    cases rcpts
    · exact absurd rfl hne
    · rfl
  have hlen1 : (mailLine rp).length + 2 ≤ MAX_LINE := by
    simp [mailLine, mailFromPat, MAX_LINE]
    omega
  have hstep1 : step s (mailLine rp) =
      ({ s with st := .MailFrom, envelope := some ⟨rp, []⟩ }, [reply 250 "Ok"], []) := by
    have h := step_cmd s (mailLine rp) (by simp [isCommandPhase, hst]) hlen1
    rw [parse_mail] at h
    rw [h]
    simp [dispatch, hst]
  have hrun2 := run_rcpts rcpts { s with st := .MailFrom, envelope := some ⟨rp, []⟩ }
    ⟨rp, []⟩ (by simp) (by simp) hrcpts
  rw [hie] at hrun2
  simp at hrun2
  have hstep3 : step { s with st := .RcptTo, envelope := some ⟨rp, rcpts⟩ } dataLine =
      ({ s with st := .Data, envelope := some ⟨rp, rcpts⟩, dataBuf := [] },
        [reply 354 "Start mail input; end with <CRLF>.<CRLF>"], []) := by
    have h := step_cmd { s with st := .RcptTo, envelope := some ⟨rp, rcpts⟩ } dataLine
      (by simp [isCommandPhase]) (by simp [dataLine, MAX_LINE])
    rw [parse_data] at h
    rw [h]
    simp [dispatch]
  have hrun4 := run_body body { s with st := .Data, envelope := some ⟨rp, rcpts⟩, dataBuf := [] }
    (by simp) hbody
  simp at hrun4
  have hstep5 : step { s with
      st := .Data
      envelope := some ⟨rp, rcpts⟩
      dataBuf := body.map unstuff } dotLine =
      ({ s with st := .Hello, envelope := none, dataBuf := [] }, [reply 250 "Ok"],
        [joinCrlf (body.map unstuff)]) := by
    simp [step, dotLine]
  rw [show mailLine rp :: (rcpts.map rcptLine ++ [dataLine] ++ body ++ [dotLine])
      = mailLine rp :: (rcpts.map rcptLine ++ ([dataLine] ++ (body ++ [dotLine])))
    from by simp]
  simp [run, hstep1, run_append, hrun2, run_singleton, hstep3, hrun4, hstep5]

/-- Claim C2 witness: the spec's own example — body `..dot CRLF . CRLF`
after MAIL and one RCPT is delivered to the handler as `.dot CRLF`. -/
theorem C2_dot_stuffing_reversed_witness :
    (run ⟨.Hello, some ['c'], false, false, none, true, [], [], []⟩
        (mailLine "<a@x>".toList ::
          ([("<b@y>".toList)].map rcptLine ++ [dataLine] ++
            [['.', '.', 'd', 'o', 't']] ++ [dotLine]))).2.2
      = [".dot\r\n".toList] := by
  rw [C2_dot_stuffing_reversed _ _ _ _ rfl (by decide) (by decide) (by decide)
    (by decide)]
  decide

/-- Claim C3: one reply per command — a run whose every line is processed
in the command phase draws exactly one CRLF-terminated reply per line;
the exceptions are the DATA body transfer, where a non-terminator body
line draws no reply (and the terminator one), and the SASL exchange,
where each continuation line draws exactly one reply, a 334 whenever the
exchange continues. -/
theorem C3_one_reply_per_command :
    (∀ (s : Session) (lines : List Line), staysInCommandPhase s lines = true →
      ((run s lines).2.1).length = lines.length) ∧
    (∀ (s : Session) (line : Line), s.st = .Data → line ≠ dotLine →
      (step s line).2.1 = []) ∧
    (∀ s : Session, s.st = .Data → ((step s dotLine).2.1).length = 1) ∧
    (∀ (s : Session) (line : Line), s.st = .SaslChallenge →
      ((step s line).2.1).length = 1 ∧
      ((step s line).1.st = .SaslChallenge →
        ((step s line).2.1).map Reply.code = [334])) := by
  refine ⟨fun s lines h => run_cmd_counts lines s h, fun s line h1 h2 => ?_,
    fun s h => ?_, fun s line h => ⟨?_, fun hc => ?_⟩⟩
  · have : line ≠ ['.'] := by simpa [dotLine] using h2
    simp [step, h1, this]
  · simp [step, h, dotLine]
  · by_cases habort : line = ['*']
    · simp [step, h, saslStep, habort]
    · cases hrem : s.saslRemaining <;> simp [step, h, saslStep, habort, hrem]
  · by_cases habort : line = ['*']
    · simp [step, h, saslStep, habort] at hc
    · cases hrem : s.saslRemaining <;>
        simp [step, h, saslStep, habort, hrem, reply] at hc ⊢

/-- Claim C3 witness: a two-command run in the command phase draws two
replies; a body line draws none, the terminator one, and a SASL
continuation one. -/
theorem C3_one_reply_per_command_witness :
    ((run ⟨.Hello, some ['c'], false, false, none, true, [], [], []⟩
        [['N', 'O', 'O', 'P'], ['R', 'S', 'E', 'T']]).2.1).length = 2 ∧
    (step ⟨.Data, some ['c'], false, false, some ⟨[], [['r']]⟩, true, [], [], []⟩
        ['x']).2.1 = [] ∧
    ((step ⟨.Data, some ['c'], false, false, some ⟨[], [['r']]⟩, true, [], [], []⟩
        dotLine).2.1).length = 1 ∧
    ((step ⟨.SaslChallenge, some ['c'], false, false, none, true, ["c1"], [], []⟩
        ['a']).2.1).length = 1 :=
  ⟨C3_one_reply_per_command.1 ⟨.Hello, some ['c'], false, false, none, true, [], [], []⟩
      [['N', 'O', 'O', 'P'], ['R', 'S', 'E', 'T']] (by decide),
    C3_one_reply_per_command.2.1
      ⟨.Data, some ['c'], false, false, some ⟨[], [['r']]⟩, true, [], [], []⟩
      ['x'] rfl (by decide),
    C3_one_reply_per_command.2.2.1
      ⟨.Data, some ['c'], false, false, some ⟨[], [['r']]⟩, true, [], [], []⟩ rfl,
    (C3_one_reply_per_command.2.2.2
      ⟨.SaslChallenge, some ['c'], false, false, none, true, ["c1"], [], []⟩
      ['a'] rfl).1⟩

/-- Claim C4: in the command phase — whatever the session state there —
a line strictly longer than 1000 octets (before its CRLF) draws the reply
500 and leaves the whole session context unchanged. -/
theorem C4_long_line_rejected (s : Session) (line : Line)
    (hphase : isCommandPhase s.st = true) (hlen : 1000 < line.length) :
    step s line = (s, [reply 500 "Line too long"], []) := by
  have hgt : MAX_LINE < line.length + 2 := by
    simp only [MAX_LINE]
    omega
  cases hst : s.st <;> simp [isCommandPhase, hst] at hphase <;> simp [step, hst, hgt]

/-- Claim C4 witness: a 1001-octet line in the `Hello` state. -/
theorem C4_long_line_rejected_witness :
    step ⟨.Hello, some ['c'], false, false, none, true, [], [], []⟩
        (List.replicate 1001 'a') =
      (⟨.Hello, some ['c'], false, false, none, true, [], [], []⟩,
        [reply 500 "Line too long"], []) :=
  C4_long_line_rejected ⟨.Hello, some ['c'], false, false, none, true, [], [], []⟩
    (List.replicate 1001 'a') rfl (by rw [List.length_replicate]; omega)

/-- Claim C5: after an accepted STARTTLS followed by the successful TLS
handshake (folded into the same transition of the model), the session has
`isTls` set and hello name, envelope and authentication cleared; a MAIL
FROM sent next is rejected as a sequence error (503) without state
change, and EHLO/HELO are the only verbs whose dispatch progresses the
session. -/
theorem C5_starttls_resets_session (s : Session) (hst : s.st = .Hello)
    (hcfg : s.tlsConfigured = true) (htls : s.isTls = false) :
    (dispatch s .startTls).2 = [reply 220 "Ready to start TLS"] ∧
    (dispatch s .startTls).1.isTls = true ∧
    (dispatch s .startTls).1.helloName = none ∧
    (dispatch s .startTls).1.envelope = none ∧
    (dispatch s .startTls).1.isAuthenticated = false ∧
    (∀ arg, dispatch (dispatch s .startTls).1 (.mailFrom arg) =
      ((dispatch s .startTls).1, [reply 503 "Bad sequence of commands"])) ∧
    (∀ v, progresses (dispatch s .startTls).1 v = true →
      (∃ n, v = Verb.helo n) ∨ (∃ n, v = Verb.ehlo n)) := by
  have hd : dispatch s .startTls =
      ({ s with
          st := .Greeted
          helloName := none
          envelope := none
          isAuthenticated := false
          isTls := true
          saslRemaining := []
          dataBuf := [] }, [reply 220 "Ready to start TLS"]) := by
    simp [dispatch, hst, hcfg, htls]
  rw [hd]
  refine ⟨rfl, rfl, rfl, rfl, rfl, fun arg => ?_, fun v hv => ?_⟩
  · simp [dispatch]
  · cases v
    case helo n => exact Or.inl ⟨n, rfl⟩
    case ehlo n => exact Or.inr ⟨n, rfl⟩
    all_goals exfalso
    all_goals simp [progresses, dispatch, transRank] at hv

/-- Claim C5 witness: a hello-stage session with a hello name, an
authenticated flag and an envelope, upgraded by STARTTLS. -/
theorem C5_starttls_resets_session_witness :
    (dispatch ⟨.Hello, some ['c'], false, true, some ⟨['r'], []⟩, true, [], [], []⟩
        .startTls).2 = [reply 220 "Ready to start TLS"] ∧
    (dispatch ⟨.Hello, some ['c'], false, true, some ⟨['r'], []⟩, true, [], [], []⟩
        .startTls).1.isTls = true ∧
    (dispatch ⟨.Hello, some ['c'], false, true, some ⟨['r'], []⟩, true, [], [], []⟩
        .startTls).1.helloName = none ∧
    (dispatch ⟨.Hello, some ['c'], false, true, some ⟨['r'], []⟩, true, [], [], []⟩
        .startTls).1.envelope = none ∧
    (dispatch ⟨.Hello, some ['c'], false, true, some ⟨['r'], []⟩, true, [], [], []⟩
        .startTls).1.isAuthenticated = false ∧
    (∀ arg, dispatch
        (dispatch ⟨.Hello, some ['c'], false, true, some ⟨['r'], []⟩, true, [], [], []⟩
          .startTls).1 (.mailFrom arg) =
      ((dispatch ⟨.Hello, some ['c'], false, true, some ⟨['r'], []⟩, true, [], [], []⟩
          .startTls).1, [reply 503 "Bad sequence of commands"])) ∧
    (∀ v, progresses
        (dispatch ⟨.Hello, some ['c'], false, true, some ⟨['r'], []⟩, true, [], [], []⟩
          .startTls).1 v = true →
      (∃ n, v = Verb.helo n) ∨ (∃ n, v = Verb.ehlo n)) :=
  C5_starttls_resets_session
    ⟨.Hello, some ['c'], false, true, some ⟨['r'], []⟩, true, [], [], []⟩ rfl rfl rfl

/-- Claim C6: in every state where RSET is accepted (`Hello`, `MailFrom`,
`RcptTo`), the RSET empties the envelope while the other session fields —
hello name, TLS flag, authentication — keep their prior values, the
session is back in `Hello`, and MAIL FROM is the only verb whose dispatch
progresses the session. -/
theorem C6_rset_clears_envelope_only (s : Session)
    (hacc : s.st = .Hello ∨ s.st = .MailFrom ∨ s.st = .RcptTo) :
    (dispatch s .rset).2 = [reply 250 "Ok"] ∧
    (dispatch s .rset).1.envelope = none ∧
    (dispatch s .rset).1.st = .Hello ∧
    (dispatch s .rset).1.helloName = s.helloName ∧
    (dispatch s .rset).1.isTls = s.isTls ∧
    (dispatch s .rset).1.isAuthenticated = s.isAuthenticated ∧
    (∀ v, progresses (dispatch s .rset).1 v = true → ∃ a, v = Verb.mailFrom a) := by
  have hd : dispatch s .rset = ({ s with st := .Hello, envelope := none }, [reply 250 "Ok"]) := by
    rcases hacc with h | h | h <;> simp [dispatch, h]
  rw [hd]
  refine ⟨rfl, rfl, rfl, rfl, rfl, rfl, fun v hv => ?_⟩
  cases v
  case mailFrom a => exact ⟨a, rfl⟩
  case startTls =>
    exfalso
    simp only [progresses, dispatch, decide_eq_true_eq] at hv
    by_cases hc : (s.tlsConfigured && !s.isTls) = true
    · rw [if_pos hc] at hv
      simp [transRank] at hv
    · rw [if_neg hc] at hv
      simp [transRank] at hv
  case auth arg =>
    exfalso
    simp only [progresses, dispatch, decide_eq_true_eq] at hv
    by_cases hc : s.isAuthenticated = true
    · rw [if_pos hc] at hv
      simp [transRank] at hv
    · rw [if_neg hc] at hv
      cases hmc : s.mechChallenges <;> rw [hmc] at hv <;> simp [transRank] at hv
  all_goals exfalso
  all_goals simp [progresses, dispatch, transRank] at hv

/-- Claim C6 witness: RSET from `MailFrom` on a TLS, authenticated session
with an envelope. -/
theorem C6_rset_clears_envelope_only_witness :
    (dispatch ⟨.MailFrom, some ['c'], true, true, some ⟨['r'], []⟩, true, [], [], []⟩
        .rset).2 = [reply 250 "Ok"] ∧
    (dispatch ⟨.MailFrom, some ['c'], true, true, some ⟨['r'], []⟩, true, [], [], []⟩
        .rset).1.envelope = none ∧
    (dispatch ⟨.MailFrom, some ['c'], true, true, some ⟨['r'], []⟩, true, [], [], []⟩
        .rset).1.st = .Hello ∧
    (dispatch ⟨.MailFrom, some ['c'], true, true, some ⟨['r'], []⟩, true, [], [], []⟩
        .rset).1.helloName =
      (⟨.MailFrom, some ['c'], true, true, some ⟨['r'], []⟩, true, [], [], []⟩ :
        Session).helloName ∧
    (dispatch ⟨.MailFrom, some ['c'], true, true, some ⟨['r'], []⟩, true, [], [], []⟩
        .rset).1.isTls =
      (⟨.MailFrom, some ['c'], true, true, some ⟨['r'], []⟩, true, [], [], []⟩ :
        Session).isTls ∧
    (dispatch ⟨.MailFrom, some ['c'], true, true, some ⟨['r'], []⟩, true, [], [], []⟩
        .rset).1.isAuthenticated =
      (⟨.MailFrom, some ['c'], true, true, some ⟨['r'], []⟩, true, [], [], []⟩ :
        Session).isAuthenticated ∧
    (∀ v, progresses
        (dispatch ⟨.MailFrom, some ['c'], true, true, some ⟨['r'], []⟩, true, [], [], []⟩
          .rset).1 v = true → ∃ a, v = Verb.mailFrom a) :=
  C6_rset_clears_envelope_only
    ⟨.MailFrom, some ['c'], true, true, some ⟨['r'], []⟩, true, [], [], []⟩
    (Or.inr (Or.inl rfl))

/-- Claim C7: during a SASL exchange, a continuation line equal to a lone
asterisk is treated as a client abort: the reply is
`501 Authentication cancelled`, `isAuthenticated` remains false, and the
session is back in the `Hello` state. -/
theorem C7_sasl_abort_cancelled (s : Session) (hst : s.st = .SaslChallenge)
    (hauth : s.isAuthenticated = false) :
    (step s ['*']).2.1 = [reply 501 "Authentication cancelled"] ∧
    (step s ['*']).1.isAuthenticated = false ∧
    (step s ['*']).1.st = .Hello := by
  simp [step, hst, saslStep, hauth]

/-- Claim C7 witness: an abort in the middle of a two-challenge
exchange. -/
theorem C7_sasl_abort_cancelled_witness :
    (step ⟨.SaslChallenge, some ['c'], false, false, none, true, ["c1"], ["c2"], []⟩
        ['*']).2.1 = [reply 501 "Authentication cancelled"] ∧
    (step ⟨.SaslChallenge, some ['c'], false, false, none, true, ["c1"], ["c2"], []⟩
        ['*']).1.isAuthenticated = false ∧
    (step ⟨.SaslChallenge, some ['c'], false, false, none, true, ["c1"], ["c2"], []⟩
        ['*']).1.st = .Hello :=
  C7_sasl_abort_cancelled
    ⟨.SaslChallenge, some ['c'], false, false, none, true, ["c1"], ["c2"], []⟩ rfl rfl

end VSmtp
